import Mathlib

/-!
Verification development for the bloog application (src/blog.py), a small
resource-oriented blog app.  The Python source is shallowly embedded below:
pure helper functions become Lean functions, datastore and cache effects are
recorded as explicit event traces, Python exceptions (ValueError, KeyError,
AttributeError) become an error sum type, and external collaborators that the
source merely calls (the hash builtin, the textile renderer, the legacy alias
table, the legacy-id regex and query) become parameters of the embedding.
-/

set_option autoImplicit false

namespace Bloog

/-- Python exceptions that the embedded code can raise. -/
inductive PyErr where
  | valueError
  | keyError
  | attributeError
deriving DecidableEq

/-- Python dict indexing, property_hash[k]: raises KeyError when the key is
absent from the extracted property mapping. -/
def pyIndex {α : Type} (v : Option α) : Except PyErr α :=
  match v with
  | some a => Except.ok a
  | none => Except.error PyErr.keyError

/-- Python truthiness on strings, used by the field extractor: an absent or
empty form value is dropped from the property mapping. -/
def nonEmpty (s : String) : Option String :=
  if s = "" then none else some s

/-- Python datetime.datetime values: naive timestamps with microseconds. -/
structure DateTime where
  year : Nat
  month : Nat
  day : Nat
  hour : Nat
  minute : Nat
  second : Nat
  microsecond : Nat
deriving DecidableEq

def isLeapYear (y : Nat) : Bool :=
  (y % 4 == 0 && y % 100 != 0) || y % 400 == 0

def daysInMonth (y m : Nat) : Nat :=
  if m == 2 then (if isLeapYear y then 29 else 28)
  else if m == 4 || m == 6 || m == 9 || m == 11 then 30
  else 31

/-- The datetime.datetime constructor: validates all components and raises
ValueError on an out-of-range field, notably a day beyond the length of the month. -/
def mkDatetime (y mo d h mi s us : Nat) : Except PyErr DateTime :=
  if 1 ≤ y ∧ y ≤ 9999 ∧ 1 ≤ mo ∧ mo ≤ 12 ∧ 1 ≤ d ∧ d ≤ daysInMonth y mo
      ∧ h ≤ 23 ∧ mi ≤ 59 ∧ s ≤ 59 ∧ us ≤ 999999 then
    Except.ok ⟨y, mo, d, h, mi, s, us⟩
  else
    Except.error PyErr.valueError

def dtKey (d : DateTime) : List Nat :=
  [d.year, d.month, d.day, d.hour, d.minute, d.second, d.microsecond]

def lexLe : List Nat → List Nat → Bool
  | [], _ => true
  | _ :: _, [] => false
  | a :: restA, b :: restB =>
    if a < b then true else if b < a then false else lexLe restA restB

/-- Comparison of datetime values (lexicographic on components). -/
def dtLe (a b : DateTime) : Bool := lexLe (dtKey a) (dtKey b)

/-- Python string.atoi: parse a decimal integer, ValueError on junk.  The
embedding covers the plain digit strings produced by the URL routing. -/
def atoi (s : String) : Except PyErr Nat :=
  if s ≠ "" && s.data.all (fun c => c.isDigit) then
    Except.ok (s.data.foldl (fun acc c => acc * 10 + (c.toNat - 48)) 0)
  else
    Except.error PyErr.valueError

/-- Python whitespace class, the re class backslash-s over ASCII. -/
def isPySpace (c : Char) : Bool :=
  c == ' ' || c == '\t' || c == '\n' || c == '\r' || c == '\x0b' || c == '\x0c'

/-- Python word-character class, the re class backslash-w over ASCII. -/
def isWordChar (c : Char) : Bool :=
  c.isAlpha || c.isDigit || c == '_'

def isHyphen (c : Char) : Bool := c == '-'

/-- Python str.strip(): drop leading and trailing whitespace. -/
def pyStrip (l : List Char) : List Char :=
  ((l.dropWhile isPySpace).reverse.dropWhile isPySpace).reverse

def pyStripString (s : String) : String := String.mk (pyStrip s.data)

/-- Regex substitution of every maximal run of characters matching p by the
single character rep (the shape of re.sub with a one-or-more character-class
pattern).  The boolean argument records whether the previous character was
inside a run. -/
def collapseRuns (p : Char → Bool) (rep : Char) : Bool → List Char → List Char
  | _, [] => []
  | prev, c :: rest =>
    match p c, prev with
    | true, true => collapseRuns p rep true rest
    | true, false => rep :: collapseRuns p rep true rest
    | false, _ => c :: collapseRuns p rep false rest

/-- Substitution re.sub of the pattern caret-w-hyphen class complement by the
empty string: keep only word characters and hyphens. -/
def removeNonWordHyphen (l : List Char) : List Char :=
  l.filter (fun c => isWordChar c || isHyphen c)

/-- Character-list core of get_friendly_url from src/blog.py line 80: strip,
collapse whitespace runs to one hyphen, drop everything outside word
characters and hyphen, collapse hyphen runs to one hyphen. -/
def slugChars (l : List Char) : List Char :=
  collapseRuns isHyphen '-' false
    (removeNonWordHyphen (collapseRuns isPySpace '-' false (pyStrip l)))

/-- Embeds get_friendly_url (src/blog.py line 80). -/
def get_friendly_url (title : String) : String :=
  String.mk (slugChars title.data)

/-- Fixed-width parser core of datetime.datetime.strptime with the format
string of get_datetime: percent-Y percent-m percent-d, space, percent-H
percent-M percent-S. -/
def parseNDigits (acc : Nat) : Nat → List Char → Option (Nat × List Char)
  | 0, rest => some (acc, rest)
  | _ + 1, [] => none
  | n + 1, c :: rest =>
    if c.isDigit then parseNDigits (acc * 10 + (c.toNat - 48)) n rest else none

def expectChar (c : Char) : List Char → Option (List Char)
  | [] => none
  | d :: rest => if d == c then some rest else none

/-- Embeds datetime.datetime.strptime(time_string, the format used at
src/blog.py line 72): parse and validate, ValueError on failure. -/
def strptime (s : String) : Except PyErr DateTime :=
  match parseNDigits 0 4 s.data with
  | none => Except.error PyErr.valueError
  | some (y, r1) =>
    match expectChar '-' r1 with
    | none => Except.error PyErr.valueError
    | some r2 =>
      match parseNDigits 0 2 r2 with
      | none => Except.error PyErr.valueError
      | some (mo, r3) =>
        match expectChar '-' r3 with
        | none => Except.error PyErr.valueError
        | some r4 =>
          match parseNDigits 0 2 r4 with
          | none => Except.error PyErr.valueError
          | some (d, r5) =>
            match expectChar ' ' r5 with
            | none => Except.error PyErr.valueError
            | some r6 =>
              match parseNDigits 0 2 r6 with
              | none => Except.error PyErr.valueError
              | some (h, r7) =>
                match expectChar ':' r7 with
                | none => Except.error PyErr.valueError
                | some r8 =>
                  match parseNDigits 0 2 r8 with
                  | none => Except.error PyErr.valueError
                  | some (mi, r9) =>
                    match expectChar ':' r9 with
                    | none => Except.error PyErr.valueError
                    | some r10 =>
                      match parseNDigits 0 2 r10 with
                      | none => Except.error PyErr.valueError
                      | some (se, r11) =>
                        if r11 = [] then mkDatetime y mo d h mi se 0
                        else Except.error PyErr.valueError

/-- Embeds get_datetime (src/blog.py lines 70-73).  The clock value that
datetime.datetime.now() would return is passed in as the argument now. -/
def get_datetime (now : DateTime) (time_string : String) : Except PyErr DateTime :=
  if time_string ≠ "" then strptime time_string else Except.ok now

/-- Embeds get_tags (src/blog.py lines 75-78): split on commas, keep segments
that are nonempty before stripping, strip each; None on an empty input. -/
def get_tags (tag_string : String) : Option (List String) :=
  if tag_string ≠ "" then
    some (((tag_string.splitOn ",").filter (fun s => s ≠ "")).map pyStripString)
  else none

/-- Embeds get_html (src/blog.py lines 83-86).  The textile renderer is an
external library and is passed in as a function argument. -/
def get_html (textile : String → String) (body markup_type : String) : String :=
  if markup_type == "textile" then textile body else body

/-- Embeds permalink_funcs (src/blog.py lines 64-67), a dict from article
type to permalink generator; the two keys present are page and blog. -/
def permalink_funcs (article_type : String) (title : String) (date : DateTime) : String :=
  if article_type == "page" then get_friendly_url title
  else toString date.year ++ "/" ++ toString date.month ++ "/" ++ get_friendly_url title

/-- Embeds the model.Article entity (module model is external to src/; its
fields are those set by src/blog.py).  The field big backs the is_big method,
described by the spec as an independent flag on the article. -/
structure Article where
  permalink : String
  article_type : String
  title : String
  body : String
  html : String
  format : String
  published : DateTime
  updated : DateTime
  tags : Option (List String)
  legacy_id : Option String
  associated_data : List (String × String)
  num_comments : Option Nat
  big : Bool
deriving DecidableEq

/-- Modelled from the spec: model.Article.is_big (module model is not in
src/); section 4.3 treats it as an independent flag on the article, separate
from the content-volume arithmetic. -/
def Article.is_big (a : Article) : Bool := a.big

/-- Embeds the model.Comment entity (module model is external to src/; the
fields are those set by src/blog.py).  The article field holds the datastore
key of the owning article, modelled by the permalink of that article. -/
structure Comment where
  permalink : String
  body : String
  article : String
  thread : String
  name : Option String
  email : Option String
  title : Option String
  published : Option DateTime
deriving DecidableEq

/-- Observable side effects of a handler, in execution order: datastore
writes, datastore deletes, the response output, and render-cache
invalidation. -/
inductive Event where
  | putArticle (a : Article)
  | putComment (c : Comment)
  | respond (permalink : String) (entity_type : String)
  | invalidateCache
  | error404
  | writeOut (s : String)
  | deleteEntity (kind : String) (permalink : String)
deriving DecidableEq

/-- How a handler invocation ends: normal completion, rejection by the role
gate, or a propagating Python exception. -/
inductive HandlerResult where
  | done
  | unauthorized
  | raised (e : PyErr)
deriving DecidableEq

/-- A handler run: the side effects it performed, in order, and how it
ended. -/
structure Outcome where
  events : List Event
  result : HandlerResult
deriving DecidableEq

/-- Form fields of an article submission as handed to the field extractor;
an absent field reads as the empty string, as with webapp request.get. -/
structure ArticleRequest where
  title : String
  body : String
  format : String
  legacy_id : String
  published : String
  updated : String
  tags : String
  relevant_links : String
  amazon_items : String
deriving DecidableEq

/-- Extracted property mapping for an article submission; absent fields are
None. -/
structure ArticleHash where
  title : Option String
  body : Option String
  format : Option String
  legacy_id : Option String
  published : DateTime
  updated : DateTime
  tags : Option (List String)
  html : Option String
  permalink : Option String
deriving DecidableEq

/-- A list value in the property mapping is kept only when truthy, that is,
nonempty. -/
def truthyTags (t : Option (List String)) : Option (List String) :=
  match t with
  | some [] => none
  | x => x

/-- Modelled from the spec: restful.get_hash_from_request (module restful is
not in src/), instantiated at the article field-spec list of
process_article_submission (src/blog.py lines 94-104).  Per section 4.1 the
specs run in list order, a plain field is omitted when absent or empty, a
transform field applies its transform to the raw value, and a dependency
transform receives the already-extracted dependency values, raising KeyError
when a dependency is absent.  Failure order follows the list: the published
and updated parses, then the html step indexing body and format, then the
permalink step indexing title. -/
def article_hash_from_request (textile : String → String) (now : DateTime)
    (article_type : String) (req : ArticleRequest) : Except PyErr ArticleHash :=
  match get_datetime now req.published with
  | Except.error e => Except.error e
  | Except.ok published =>
    match get_datetime now req.updated with
    | Except.error e => Except.error e
    | Except.ok updated =>
      match pyIndex (nonEmpty req.body) with
      | Except.error e => Except.error e
      | Except.ok b =>
        match pyIndex (nonEmpty req.format) with
        | Except.error e => Except.error e
        | Except.ok f =>
          match pyIndex (nonEmpty req.title) with
          | Except.error e => Except.error e
          | Except.ok t =>
            Except.ok
              { title := nonEmpty req.title
                body := nonEmpty req.body
                format := nonEmpty req.format
                legacy_id := nonEmpty req.legacy_id
                published := published
                updated := updated
                tags := truthyTags (get_tags req.tags)
                html := nonEmpty (get_html textile b f)
                permalink := nonEmpty (permalink_funcs article_type t published) }

/-- Embeds process_article_submission (src/blog.py lines 93-120): extract the
property mapping, construct the Article (indexing the required keys, KeyError
when one is absent), fill optional properties, persist, respond, invalidate
the cache, in that source order. -/
def process_article_submission (textile : String → String) (now : DateTime)
    (article_type : String) (req : ArticleRequest) : Outcome :=
  match article_hash_from_request textile now article_type req with
  | Except.error e => { events := [], result := HandlerResult.raised e }
  | Except.ok ph =>
    match ph.permalink with
    | none => { events := [], result := HandlerResult.raised PyErr.keyError }
    | some pl =>
      match ph.title with
      | none => { events := [], result := HandlerResult.raised PyErr.keyError }
      | some t =>
        match ph.body with
        | none => { events := [], result := HandlerResult.raised PyErr.keyError }
        | some b =>
          match ph.html with
          | none => { events := [], result := HandlerResult.raised PyErr.keyError }
          | some h =>
            let article : Article :=
              { permalink := pl
                article_type := article_type
                title := t
                body := b
                html := h
                published := ph.published
                updated := ph.updated
                format := "html"
                tags := ph.tags
                legacy_id := ph.legacy_id
                associated_data :=
                  [("relevant_links", req.relevant_links), ("amazon_items", req.amazon_items)]
                num_comments := none
                big := false }
            { events :=
                [Event.putArticle article,
                 Event.respond article.permalink article_type,
                 Event.invalidateCache]
              result := HandlerResult.done }

/-- Form fields of a comment submission as handed to the field extractor. -/
structure CommentRequest where
  name : String
  email : String
  title : String
  body : String
  thread : String
  published : String
deriving DecidableEq

/-- Extracted property mapping for a comment submission. -/
structure CommentHash where
  name : Option String
  email : Option String
  title : Option String
  body : Option String
  thread : Option String
  published : DateTime
deriving DecidableEq

/-- Modelled from the spec: restful.get_hash_from_request (module restful is
not in src/), instantiated at the comment field-spec list of
process_comment_submission (src/blog.py lines 135-142).  Plain fields are
omitted when absent or empty; the published transform get_datetime always
yields a value (the clock when the field is empty) and can raise ValueError
on a malformed value. -/
def comment_hash_from_request (now : DateTime) (req : CommentRequest) :
    Except PyErr CommentHash :=
  match get_datetime now req.published with
  | Except.error e => Except.error e
  | Except.ok published =>
    Except.ok
      { name := nonEmpty req.name
        email := nonEmpty req.email
        title := nonEmpty req.title
        body := nonEmpty req.body
        thread := nonEmpty req.thread
        published := published }

/-- Embeds the comment-counter update of src/blog.py lines 129-132: a falsy
counter (unset or zero) becomes one, otherwise it is incremented. -/
def bump (n : Option Nat) : Option Nat :=
  match n with
  | none => some 1
  | some 0 => some 1
  | some k => some (k + 1)

/-- Embeds process_comment_submission (src/blog.py lines 122-156).  The
Python builtin hash on the (name, email, body) triple is external and is
passed in as the argument pyHash.  The parent article counter is bumped and
the parent persisted first; then the property mapping is read (the indexing
of name, email, body for the key and of body and thread for the Comment
constructor raises KeyError on an absent field); then the comment is
persisted, the response produced and the cache invalidated, in source
order. -/
def process_comment_submission (pyHash : String → String → String → Int)
    (now : DateTime) (req : CommentRequest) (article : Option Article) : Outcome :=
  match article with
  | none => { events := [Event.error404], result := HandlerResult.done }
  | some article =>
    let articleU : Article := { article with num_comments := bump article.num_comments }
    match comment_hash_from_request now req with
    | Except.error e =>
      { events := [Event.putArticle articleU], result := HandlerResult.raised e }
    | Except.ok ph =>
      match ph.name with
      | none =>
        { events := [Event.putArticle articleU], result := HandlerResult.raised PyErr.keyError }
      | some n =>
        match ph.email with
        | none =>
          { events := [Event.putArticle articleU], result := HandlerResult.raised PyErr.keyError }
        | some em =>
          match ph.body with
          | none =>
            { events := [Event.putArticle articleU], result := HandlerResult.raised PyErr.keyError }
          | some b =>
            let comment_key := toString (pyHash n em b)
            match ph.thread with
            | none =>
              { events := [Event.putArticle articleU], result := HandlerResult.raised PyErr.keyError }
            | some th =>
              let comment : Comment :=
                { permalink := comment_key
                  body := b
                  article := articleU.permalink
                  thread := th
                  name := ph.name
                  email := ph.email
                  title := ph.title
                  published := some ph.published }
              { events :=
                  [Event.putArticle articleU,
                   Event.putComment comment,
                   Event.respond comment.permalink "comment",
                   Event.invalidateCache]
                result := HandlerResult.done }

/-- Configured legacy-id mapping (config.blog, an external config): a regex
whose first capture group is extracted from the path, and a query function
from that group to an article.  Both are external inputs, so they appear as
functions. -/
structure LegacyIdMapping where
  regexMatch : String → Option String
  query : String → Option Article

/-- Python str.lower over the character list (the core String.toLower
recurses by well-founded recursion, which blocks kernel evaluation). -/
def pyLower (s : String) : String := String.mk (s.data.map Char.toLower)

/-- Embeds the legacy-alias scan of src/blog.py lines 184-187: first table
entry whose key equals the path case-insensitively. -/
def findAlias (redirects : List (String × String)) (path : String) :
    Option (String × String) :=
  redirects.find? (fun al => pyLower path == pyLower al.1)

/-- Embeds the legacy-id lookup of src/blog.py lines 190-194: when the
mapping is configured and its regex matches, query on the captured group. -/
def legacyLookup (legacy : Option LegacyIdMapping) (path : String) : Option Article :=
  match legacy with
  | some lm =>
    match lm.regexMatch path with
    | some g => lm.query g
    | none => none
  | none => none

/-- Embeds the datastore query filtering on permalink equality and taking the
first result (src/blog.py line 198 and line 304). -/
def directLookup (store : List Article) (path : String) : Option Article :=
  store.find? (fun a => a.permalink == path)

/-- Result of a GET on the Page or Article handler. -/
inductive PageResult where
  | redirect (location : String)
  | rendered (two_columns : Bool) (title : String) (article : Article)
      (comments : List Comment)
deriving DecidableEq

/-- Embeds the comment back-reference query article.comment_set: comments
whose article key is the key of this article. -/
def commentsOf (comments : List Comment) (a : Article) : List Comment :=
  comments.filter (fun c => c.article == a.permalink)

/-- Embeds PageHandler.get (src/blog.py lines 181-212): legacy-alias
redirect, else legacy-id lookup, else direct permalink lookup, rendering a
found article and redirecting to the static 404 page otherwise. -/
def PageHandler_get (redirects : List (String × String))
    (legacy : Option LegacyIdMapping) (store : List Article)
    (comments : List Comment) (path : String) : PageResult :=
  match findAlias redirects path with
  | some al => PageResult.redirect ("/" ++ al.2)
  | none =>
    let viaLegacy := legacyLookup legacy path
    let article :=
      match viaLegacy with
      | some a => some a
      | none => directLookup store path
    match article with
    | some a =>
      let cs := commentsOf comments a
      PageResult.rendered
        (a.is_big || decide (a.html.length + cs.length * 80 > 2000)) a.title a cs
    | none => PageResult.redirect "/404.html"

/-- Embeds ArticleHandler.get (src/blog.py lines 302-313).  The two-column
computation calls article.is_big() outside the if-article guard, so a missing
article is a None attribute access, raising AttributeError. -/
def ArticleHandler_get (store : List Article) (comments : List Comment)
    (year month perm_stem : String) : Except PyErr PageResult :=
  let article := directLookup store (year ++ "/" ++ month ++ "/" ++ perm_stem)
  let cs :=
    match article with
    | some a => commentsOf comments a
    | none => ([] : List Comment)
  match article with
  | none => Except.error PyErr.attributeError
  | some a =>
    Except.ok
      (PageResult.rendered
        (a.is_big || decide (a.html.length + cs.length * 80 > 2000)) a.title a cs)

/-- Embeds the inner delete_entity closure of PageHandler.delete (src/blog.py
lines 229-238): fetch one entity of the kind, delete it, write the response,
invalidate the cache; 404 when the store holds none. -/
def delete_entity (model_class : String) (permalinks : List String) : Outcome :=
  match permalinks.head? with
  | some pl =>
    { events :=
        [Event.deleteEntity model_class pl,
         Event.writeOut ("Deleted " ++ pl),
         Event.invalidateCache]
      result := HandlerResult.done }
  | none => { events := [Event.error404], result := HandlerResult.done }

/-- Embeds the body of PageHandler.delete (src/blog.py lines 219-247), the
admin debug utility: dispatch on the lowercased path to the entity kind. -/
def PageHandler_delete_body (articles : List Article) (comments : List Comment)
    (path : String) : Outcome :=
  let model_class := pyLower path
  if model_class == "article" then
    delete_entity model_class (articles.map (fun a => a.permalink))
  else if model_class == "comment" then
    delete_entity model_class (comments.map (fun c => c.permalink))
  else { events := [Event.error404], result := HandlerResult.done }

/-- Insertion step for ordering articles newest first, the order by minus
published of the datastore queries. -/
def insertByPublishedDesc (a : Article) : List Article → List Article
  | [] => [a]
  | b :: rest =>
    if dtLe a.published b.published then b :: insertByPublishedDesc a rest
    else a :: b :: rest

/-- Order a list of articles newest first. -/
def sortByPublishedDesc (l : List Article) : List Article :=
  l.foldr insertByPublishedDesc []

/-- Embeds MonthHandler.get (src/blog.py lines 285-294): parse year and
month, build the inclusive range from day 1 to day 31 of that month, list the
articles published in the range, newest first.  The end datetime is always
constructed with day 31. -/
def MonthHandler_get (store : List Article) (year month : String) :
    Except PyErr (List Article) :=
  match atoi year with
  | Except.error e => Except.error e
  | Except.ok y =>
    match atoi month with
    | Except.error e => Except.error e
    | Except.ok m =>
      match mkDatetime y m 1 0 0 0 0 with
      | Except.error e => Except.error e
      | Except.ok start_date =>
        match mkDatetime y m 31 23 59 59 0 with
        | Except.error e => Except.error e
        | Except.ok end_date =>
          Except.ok (sortByPublishedDesc (store.filter
            (fun a => dtLe start_date a.published && dtLe a.published end_date)))

/-- Modelled from the spec: the authorized.role decorator (module authorized
is not in src/).  Section 4.4: the gate checks the role membership of the caller
before the method body runs; on failure it short-circuits, runs no handler
code, performs no side effects and produces the unauthorized response. -/
def role_gate (required : String) (roles : List String) (body : Unit → Outcome) :
    Outcome :=
  if required ∈ roles then body ()
  else { events := [], result := HandlerResult.unauthorized }

/-- Embeds RootHandler.post (src/blog.py lines 175-178): admin-gated page
creation. -/
def RootHandler_post (roles : List String) (textile : String → String)
    (now : DateTime) (req : ArticleRequest) : Outcome :=
  role_gate "admin" roles (fun _ => process_article_submission textile now "page" req)

/-- Embeds PageHandler.post (src/blog.py lines 214-217): user-gated comment
creation on the article matching the path. -/
def PageHandler_post (roles : List String) (pyHash : String → String → String → Int)
    (now : DateTime) (store : List Article) (req : CommentRequest)
    (path : String) : Outcome :=
  role_gate "user" roles
    (fun _ => process_comment_submission pyHash now req (directLookup store path))

/-- Embeds PageHandler.delete (src/blog.py lines 219-247) with its admin
gate. -/
def PageHandler_delete (roles : List String) (articles : List Article)
    (comments : List Comment) (path : String) : Outcome :=
  role_gate "admin" roles (fun _ => PageHandler_delete_body articles comments path)

/-- Decidable check that a character list has no two adjacent characters both
matching p; with p the hyphen test this is the absence of hyphen runs of
length two or more. -/
def noAdjacent (p : Char → Bool) : List Char → Bool
  | [] => true
  | [_] => true
  | c1 :: c2 :: rest => !(p c1 && p c2) && noAdjacent p (c2 :: rest)

/-- The permalink of the comment that a handler run persisted, when it
persisted one. -/
def comment_key_of (o : Outcome) : Option String :=
  o.events.findSome? (fun e =>
    match e with
    | Event.putComment c => some c.permalink
    | _ => none)

def isRespondEvent : Event → Bool
  | Event.respond _ _ => true
  | _ => false

def isInvalidateEvent : Event → Bool
  | Event.invalidateCache => true
  | _ => false

/-- Whether the first cache invalidation of a trace comes strictly before the
first response, the ordering that section 4.5 of the spec asserts for the
write pipeline. -/
def invalidate_before_respond (evs : List Event) : Bool :=
  match evs.findIdx? isInvalidateEvent, evs.findIdx? isRespondEvent with
  | some i, some j => decide (i < j)
  | _, _ => false

/-- Sample clock value used by concrete witnesses. -/
def exNow : DateTime := ⟨2024, 1, 1, 0, 0, 0, 0⟩

/-- Sample article-submission form: title, body and format present, the
published field a parseable timestamp, everything else absent. -/
def exArticleReq : ArticleRequest :=
  ⟨"Hello World", "Body text", "html", "", "2024-03-15 10:00:00", "", "", "", ""⟩

/-- The article that submitting exArticleReq as a blog article produces. -/
def exBlogArticle : Article :=
  { permalink := "2024/3/Hello-World"
    article_type := "blog"
    title := "Hello World"
    body := "Body text"
    html := "Body text"
    format := "html"
    published := ⟨2024, 3, 15, 10, 0, 0, 0⟩
    updated := ⟨2024, 1, 1, 0, 0, 0, 0⟩
    tags := none
    legacy_id := none
    associated_data := [("relevant_links", ""), ("amazon_items", "")]
    num_comments := none
    big := false }

/-- Sample stored article with no comments yet. -/
def exParentArticle : Article :=
  { permalink := "about"
    article_type := "page"
    title := "About"
    body := "b"
    html := "b"
    format := "html"
    published := ⟨2024, 1, 1, 0, 0, 0, 0⟩
    updated := ⟨2024, 1, 1, 0, 0, 0, 0⟩
    tags := none
    legacy_id := none
    associated_data := []
    num_comments := none
    big := false }

/-- Sample stored article whose comment counter is already set. -/
def exParentArticle2 : Article :=
  { exParentArticle with permalink := "other", num_comments := some 3 }

/-- Sample complete comment-submission form. -/
def exCommentReq : CommentRequest :=
  ⟨"Alice", "alice@example.com", "", "Nice post", "t1", ""⟩

/-- Sample comment-submission form with the same name, email and body as
exCommentReq but a different title, thread and published timestamp. -/
def exCommentReq2 : CommentRequest :=
  ⟨"Alice", "alice@example.com", "Other", "Nice post", "t2", "2024-03-15 10:00:00"⟩

/-- Sample comment-submission form whose name field is missing. -/
def exCommentReqNoName : CommentRequest :=
  ⟨"", "alice@example.com", "", "Nice post", "t1", ""⟩

/-- Sample stand-in for the Python hash builtin on the content triple. -/
def exHash (n e b : String) : Int :=
  Int.ofNat (n.length * 31 + e.length * 7 + b.length)

/-- Sample legacy-alias table. -/
def exAliasRedirects : List (String × String) := [("About", "about-page")]

theorem noAdjacent_tail (p : Char → Bool) (c : Char) (l : List Char)
    (h : noAdjacent p (c :: l) = true) : noAdjacent p l = true := by
  cases l with
  | nil => rfl
  | cons d rest =>
    have h' := h
    simp only [noAdjacent, Bool.and_eq_true] at h'
    exact h'.2

theorem noAdjacent_cons (p : Char → Bool) (c : Char) (l : List Char)
    (hl : noAdjacent p l = true)
    (hc : ∀ c2 cs, l = c2 :: cs → p c = false ∨ p c2 = false) :
    noAdjacent p (c :: l) = true := by
  cases l with
  | nil => rfl
  | cons d rest =>
    simp only [noAdjacent, Bool.and_eq_true, Bool.not_eq_true']
    refine ⟨?_, hl⟩
    rcases hc d rest rfl with h | h
    · simp [h]
    · simp [h]

theorem mem_collapseRuns (p : Char → Bool) (rep : Char) :
    ∀ (l : List Char) (b : Bool) (c : Char),
      c ∈ collapseRuns p rep b l → c = rep ∨ c ∈ l := by
  intro l
  induction l with
  | nil =>
    intro b c h
    simp [collapseRuns] at h
  | cons d rest ih =>
    intro b c h
    cases hd : p d with
    | false =>
      simp only [collapseRuns, hd] at h
      rcases List.mem_cons.mp h with rfl | h2
      · exact Or.inr (List.mem_cons_self c rest)
      · rcases ih false c h2 with h3 | h3
        · exact Or.inl h3
        · exact Or.inr (List.mem_cons_of_mem d h3)
    | true =>
      cases b with
      | true =>
        simp only [collapseRuns, hd] at h
        rcases ih true c h with h3 | h3
        · exact Or.inl h3
        · exact Or.inr (List.mem_cons_of_mem d h3)
      | false =>
        simp only [collapseRuns, hd] at h
        rcases List.mem_cons.mp h with rfl | h2
        · exact Or.inl rfl
        · rcases ih true c h2 with h3 | h3
          · exact Or.inl h3
          · exact Or.inr (List.mem_cons_of_mem d h3)

theorem collapseRuns_head (p : Char → Bool) (rep : Char) :
    ∀ (l : List Char) (c : Char) (cs : List Char),
      collapseRuns p rep true l = c :: cs → p c = false := by
  intro l
  induction l with
  | nil =>
    intro c cs h
    simp [collapseRuns] at h
  | cons d rest ih =>
    intro c cs h
    cases hd : p d with
    | false =>
      simp only [collapseRuns, hd] at h
      obtain ⟨rfl, -⟩ := List.cons.inj h
      exact hd
    | true =>
      simp only [collapseRuns, hd] at h
      exact ih c cs h

theorem noAdjacent_collapseRuns (p : Char → Bool) (rep : Char) :
    ∀ (l : List Char) (b : Bool), noAdjacent p (collapseRuns p rep b l) = true := by
  intro l
  induction l with
  | nil => intro b; rfl
  | cons d rest ih =>
    intro b
    cases hd : p d with
    | false =>
      simp only [collapseRuns, hd]
      refine noAdjacent_cons p d _ (ih false) ?_
      intro c2 cs _
      exact Or.inl hd
    | true =>
      cases b with
      | true =>
        simp only [collapseRuns, hd]
        exact ih true
      | false =>
        simp only [collapseRuns, hd]
        refine noAdjacent_cons p rep _ (ih true) ?_
        intro c2 cs hEq
        exact Or.inr (collapseRuns_head p rep rest c2 cs hEq)

theorem collapseRuns_id_of_none (p : Char → Bool) (rep : Char) :
    ∀ (l : List Char), (∀ c ∈ l, p c = false) → ∀ b, collapseRuns p rep b l = l := by
  intro l
  induction l with
  | nil => intro _ b; rfl
  | cons d rest ih =>
    intro h b
    have hd : p d = false := h d (List.mem_cons_self d rest)
    have hrest : ∀ c ∈ rest, p c = false := fun c hc => h c (List.mem_cons_of_mem d hc)
    simp only [collapseRuns, hd]
    rw [ih hrest false]

theorem collapseRuns_hyphen_id :
    ∀ (l : List Char), noAdjacent isHyphen l = true →
      ∀ b, (b = true → ∀ c cs, l = c :: cs → isHyphen c = false) →
        collapseRuns isHyphen '-' b l = l := by
  intro l
  induction l with
  | nil => intro _ b _; rfl
  | cons d rest ih =>
    intro hna b hb
    have hrest : noAdjacent isHyphen rest = true := noAdjacent_tail isHyphen d rest hna
    cases hd : isHyphen d with
    | false =>
      simp only [collapseRuns, hd]
      rw [ih hrest false (fun hfalse => Bool.noConfusion hfalse)]
    | true =>
      cases b with
      | true =>
        exact absurd (hb rfl d rest rfl) (by simp [hd])
      | false =>
        have hd' : d = '-' := by
          have : (d == '-') = true := hd
          exact eq_of_beq this
        have hhead : ∀ c cs, rest = c :: cs → isHyphen c = false := by
          intro c cs hEq
          subst hEq
          have h' := hna
          simp only [noAdjacent, Bool.and_eq_true, Bool.not_eq_true'] at h'
          rcases Bool.and_eq_false_iff.mp h'.1 with h2 | h2
          · rw [hd] at h2; exact Bool.noConfusion h2
          · exact h2
        simp only [collapseRuns, hd]
        rw [ih hrest true (fun _ => hhead)]
        rw [hd']

theorem dropWhile_id_of_none {α : Type} (p : α → Bool) (l : List α)
    (h : ∀ c ∈ l, p c = false) : l.dropWhile p = l := by
  cases l with
  | nil => rfl
  | cons d rest =>
    have hd : p d = false := h d (List.mem_cons_self d rest)
    simp [List.dropWhile, hd]

theorem pyStrip_id_of_no_space (l : List Char) (h : ∀ c ∈ l, isPySpace c = false) :
    pyStrip l = l := by
  unfold pyStrip
  rw [dropWhile_id_of_none isPySpace l h]
  rw [dropWhile_id_of_none isPySpace l.reverse (fun c hc => h c (List.mem_reverse.mp hc))]
  exact List.reverse_reverse l

theorem filter_id_of_all {α : Type} (p : α → Bool) :
    ∀ (l : List α), (∀ c ∈ l, p c = true) → l.filter p = l := by
  intro l
  induction l with
  | nil => intro _; rfl
  | cons d rest ih =>
    intro h
    have hd : p d = true := h d (List.mem_cons_self d rest)
    have hrest : ∀ c ∈ rest, p c = true := fun c hc => h c (List.mem_cons_of_mem d hc)
    simp [List.filter, hd, ih hrest]

theorem word_not_space (c : Char) (h : isWordChar c = true) : isPySpace c = false := by
  cases hsp : isPySpace c with
  | false => rfl
  | true =>
    exfalso
    unfold isPySpace at hsp
    simp only [Bool.or_eq_true, beq_iff_eq] at hsp
    rcases hsp with ((((rfl | rfl) | rfl) | rfl) | rfl) | rfl <;> exact absurd h (by decide)

theorem slugChars_ok (l : List Char) :
    ∀ c ∈ slugChars l, (isWordChar c = true ∨ c = '-') ∧ isPySpace c = false := by
  intro c hc
  unfold slugChars at hc
  rcases mem_collapseRuns isHyphen '-' _ false c hc with rfl | hc2
  · exact ⟨Or.inr rfl, by decide⟩
  · have hmem := List.mem_filter.mp hc2
    have hor := hmem.2
    simp only [Bool.or_eq_true] at hor
    rcases hor with hw | hh
    · exact ⟨Or.inl hw, word_not_space c hw⟩
    · have hc' : c = '-' := eq_of_beq hh
      subst hc'
      exact ⟨Or.inr rfl, by decide⟩

theorem slugChars_noAdjacent (l : List Char) :
    noAdjacent isHyphen (slugChars l) = true := by
  unfold slugChars
  exact noAdjacent_collapseRuns isHyphen '-' _ false

theorem slugChars_idem (l : List Char) : slugChars (slugChars l) = slugChars l := by
  have hna : noAdjacent isHyphen (slugChars l) = true := slugChars_noAdjacent l
  have hok := slugChars_ok l
  set z := slugChars l with hz
  have hs : ∀ c ∈ z, isPySpace c = false := fun c hc => (hok c hc).2
  have hw : ∀ c ∈ z, (isWordChar c || isHyphen c) = true := by
    intro c hc
    rcases (hok c hc).1 with h | rfl
    · simp [h]
    · simp [isHyphen]
  rw [show slugChars z =
      collapseRuns isHyphen '-' false
        (removeNonWordHyphen (collapseRuns isPySpace '-' false (pyStrip z))) from rfl]
  rw [pyStrip_id_of_no_space z hs]
  rw [collapseRuns_id_of_none isPySpace '-' z hs false]
  rw [show removeNonWordHyphen z = z from filter_id_of_all _ z hw]
  exact collapseRuns_hyphen_id z hna false (fun hfalse => Bool.noConfusion hfalse)

theorem nonEmpty_some (s x : String) (h : nonEmpty s = some x) : x = s := by
  unfold nonEmpty at h
  by_cases hs : s = ""
  · rw [if_pos hs] at h
    exact Option.noConfusion h
  · rw [if_neg hs] at h
    exact (Option.some.inj h).symm

theorem pyIndex_ok {α : Type} (v : Option α) (x : α) (h : pyIndex v = Except.ok x) :
    v = some x := by
  cases v with
  | none => exact Except.noConfusion h
  | some y =>
    have : y = x := Except.ok.inj h
    rw [this]

/-- Claim C5: get_friendly_url is idempotent, and its output contains no
whitespace, no characters outside word characters and hyphen, and no run of
two or more consecutive hyphens. -/
theorem get_friendly_url_idempotent_charset (x : String) :
    get_friendly_url (get_friendly_url x) = get_friendly_url x ∧
    (∀ c ∈ (get_friendly_url x).data,
      isPySpace c = false ∧ (isWordChar c = true ∨ c = '-')) ∧
    noAdjacent isHyphen (get_friendly_url x).data = true := by
  refine ⟨?_, ?_, ?_⟩
  · show String.mk (slugChars (String.mk (slugChars x.data)).data) =
      String.mk (slugChars x.data)
    rw [show (String.mk (slugChars x.data)).data = slugChars x.data from rfl]
    rw [slugChars_idem]
  · intro c hc
    have h := slugChars_ok x.data c hc
    exact ⟨h.2, h.1⟩
  · exact slugChars_noAdjacent x.data

theorem get_friendly_url_idempotent_charset_witness :
    get_friendly_url (get_friendly_url "  Hello,   world!  ") =
        get_friendly_url "  Hello,   world!  " ∧
    (isPySpace 'H' = false ∧ (isWordChar 'H' = true ∨ 'H' = '-')) :=
  ⟨(get_friendly_url_idempotent_charset "  Hello,   world!  ").1,
   (get_friendly_url_idempotent_charset "  Hello,   world!  ").2.1 'H' (by decide)⟩

/-- Claim C2 (the code contradicts it): MonthHandler.get hard-codes day 31
for the end of the range, so for February the datetime constructor raises
ValueError and the handler does not complete, instead of listing the
articles of that calendar month. -/
theorem monthHandler_get_february_value_error :
    MonthHandler_get [] "2024" "2" = Except.error PyErr.valueError := rfl

/-- Claim C3 (the code contradicts it): ArticleHandler.get computes the
two-column flag by calling is_big on the looked-up article outside the
if-article guard, so a GET for a permalink with no matching article raises
AttributeError instead of producing a 404-style response. -/
theorem articleHandler_get_missing_article_attribute_error :
    ArticleHandler_get [] [] "2024" "1" "missing" = Except.error PyErr.attributeError := rfl

/-- Claim C9: when the caller lacks the required role, the role gate
short-circuits every gated handler method before its body runs: the trace of
side effects is empty (no store write, no cache invalidation) and the result
is the unauthorized response. -/
theorem role_gate_short_circuits (roles : List String) (textile : String → String)
    (now : DateTime) (req : ArticleRequest) (pyHash : String → String → String → Int)
    (reqC : CommentRequest) (store : List Article) (path : String)
    (articles : List Article) (comments : List Comment) (dpath : String)
    (hAdmin : "admin" ∉ roles) (hUser : "user" ∉ roles) :
    RootHandler_post roles textile now req =
        { events := [], result := HandlerResult.unauthorized } ∧
    PageHandler_post roles pyHash now store reqC path =
        { events := [], result := HandlerResult.unauthorized } ∧
    PageHandler_delete roles articles comments dpath =
        { events := [], result := HandlerResult.unauthorized } := by
  refine ⟨?_, ?_, ?_⟩ <;>
    simp [RootHandler_post, PageHandler_post, PageHandler_delete, role_gate, hAdmin, hUser]

theorem role_gate_short_circuits_witness :
    RootHandler_post [] (fun s => s) exNow exArticleReq =
        { events := [], result := HandlerResult.unauthorized } ∧
    PageHandler_post [] exHash exNow [] exCommentReq "about" =
        { events := [], result := HandlerResult.unauthorized } :=
  ⟨(role_gate_short_circuits [] (fun s => s) exNow exArticleReq exHash exCommentReq
      [] "about" [] [] "article" (by decide) (by decide)).1,
   (role_gate_short_circuits [] (fun s => s) exNow exArticleReq exHash exCommentReq
      [] "about" [] [] "article" (by decide) (by decide)).2.1⟩

/-- Claim C1: PageHandler.get resolves in exactly this precedence: a
case-insensitive legacy-alias hit redirects; otherwise a configured
legacy-id-mapping hit renders the queried article; otherwise a direct
permalink hit renders that article; otherwise the handler redirects to the
static 404 page.  In particular a path present both in the alias table and
as a live permalink resolves via the alias redirect, never the direct
match. -/
theorem pageHandler_get_lookup_precedence (redirects : List (String × String))
    (legacy : Option LegacyIdMapping) (store : List Article)
    (comments : List Comment) (path : String) :
    (∀ al, findAlias redirects path = some al →
      PageHandler_get redirects legacy store comments path =
        PageResult.redirect ("/" ++ al.2)) ∧
    (findAlias redirects path = none →
      ∀ a, legacyLookup legacy path = some a →
        PageHandler_get redirects legacy store comments path =
          PageResult.rendered
            (a.is_big || decide (a.html.length + (commentsOf comments a).length * 80 > 2000))
            a.title a (commentsOf comments a)) ∧
    (findAlias redirects path = none → legacyLookup legacy path = none →
      ∀ a, directLookup store path = some a →
        PageHandler_get redirects legacy store comments path =
          PageResult.rendered
            (a.is_big || decide (a.html.length + (commentsOf comments a).length * 80 > 2000))
            a.title a (commentsOf comments a)) ∧
    (findAlias redirects path = none → legacyLookup legacy path = none →
      directLookup store path = none →
        PageHandler_get redirects legacy store comments path =
          PageResult.redirect "/404.html") ∧
    (∀ al a, findAlias redirects path = some al → a ∈ store → a.permalink = path →
      PageHandler_get redirects legacy store comments path =
        PageResult.redirect ("/" ++ al.2)) := by
  refine ⟨?_, ?_, ?_, ?_, ?_⟩
  · intro al h
    simp [PageHandler_get, h]
  · intro h a hl
    simp [PageHandler_get, h, hl]
  · intro h hl a hd
    simp [PageHandler_get, h, hl, hd]
  · intro h hl hd
    simp [PageHandler_get, h, hl, hd]
  · intro al a h _ _
    simp [PageHandler_get, h]

theorem pageHandler_get_lookup_precedence_witness :
    PageHandler_get exAliasRedirects none [exParentArticle] [] "about" =
      PageResult.redirect "/about-page" :=
  (pageHandler_get_lookup_precedence exAliasRedirects none [exParentArticle] [] "about").2.2.2.2
    ("About", "about-page") exParentArticle (by decide) (by decide) rfl

theorem process_comment_shape (pyHash : String → String → String → Int)
    (now : DateTime) (req : CommentRequest) (article : Option Article) :
    (article = none ∧ process_comment_submission pyHash now req article =
        { events := [Event.error404], result := HandlerResult.done }) ∨
    (∃ av e, article = some av ∧ process_comment_submission pyHash now req article =
        { events := [Event.putArticle { av with num_comments := bump av.num_comments }],
          result := HandlerResult.raised e }) ∨
    (∃ av cm, article = some av ∧ process_comment_submission pyHash now req article =
        { events :=
            [Event.putArticle { av with num_comments := bump av.num_comments },
             Event.putComment cm, Event.respond cm.permalink "comment",
             Event.invalidateCache],
          result := HandlerResult.done }) := by
  cases article with
  | none => exact Or.inl ⟨rfl, rfl⟩
  | some a =>
    right
    unfold process_comment_submission
    rcases hh : comment_hash_from_request now req with e | ⟨pname, pemail, ptitle, pbody, pthread, ppub⟩
    · exact Or.inl ⟨a, e, rfl, rfl⟩
    · cases pname with
      | none => exact Or.inl ⟨a, PyErr.keyError, rfl, rfl⟩
      | some n =>
        cases pemail with
        | none => exact Or.inl ⟨a, PyErr.keyError, rfl, rfl⟩
        | some em =>
          cases pbody with
          | none => exact Or.inl ⟨a, PyErr.keyError, rfl, rfl⟩
          | some b =>
            cases pthread with
            | none => exact Or.inl ⟨a, PyErr.keyError, rfl, rfl⟩
            | some th => exact Or.inr ⟨a, _, rfl, rfl⟩

theorem process_article_shape (textile : String → String) (now : DateTime)
    (article_type : String) (req : ArticleRequest) :
    (∃ e, process_article_submission textile now article_type req =
        { events := [], result := HandlerResult.raised e }) ∨
    (∃ av, process_article_submission textile now article_type req =
        { events := [Event.putArticle av, Event.respond av.permalink article_type,
                     Event.invalidateCache],
          result := HandlerResult.done }) := by
  unfold process_article_submission
  rcases hh : article_hash_from_request textile now article_type req with e |
    ⟨tOpt, bOpt, fOpt, lidOpt, pub, upd, tg, htmlOpt, plOpt⟩
  · exact Or.inl ⟨e, rfl⟩
  · cases plOpt with
    | none => exact Or.inl ⟨PyErr.keyError, rfl⟩
    | some pl =>
      cases tOpt with
      | none => exact Or.inl ⟨PyErr.keyError, rfl⟩
      | some t =>
        cases bOpt with
        | none => exact Or.inl ⟨PyErr.keyError, rfl⟩
        | some b =>
          cases htmlOpt with
          | none => exact Or.inl ⟨PyErr.keyError, rfl⟩
          | some hv => exact Or.inr ⟨_, rfl⟩

theorem delete_body_shape (articles : List Article) (comments : List Comment)
    (path : String) :
    PageHandler_delete_body articles comments path =
        { events := [Event.error404], result := HandlerResult.done } ∨
    (∃ k pl, PageHandler_delete_body articles comments path =
        { events := [Event.deleteEntity k pl, Event.writeOut ("Deleted " ++ pl),
                     Event.invalidateCache],
          result := HandlerResult.done }) := by
  simp only [PageHandler_delete_body, delete_entity]
  split
  · split
    · exact Or.inr ⟨_, _, rfl⟩
    · exact Or.inl rfl
  · split
    · split
      · exact Or.inr ⟨_, _, rfl⟩
      · exact Or.inl rfl
    · exact Or.inl rfl

/-- Claim C4: in every comment submission whose parent article exists, the
trace starts with the persist of the parent carrying the bumped counter
(initialized to one when unset, incremented otherwise), and any comment
persist occurs at a strictly later position, never before the counter
update. -/
theorem comment_counter_persisted_first (pyHash : String → String → String → Int)
    (now : DateTime) (req : CommentRequest) (a : Article) :
    (process_comment_submission pyHash now req (some a)).events.head? =
        some (Event.putArticle { a with num_comments := bump a.num_comments }) ∧
    (a.num_comments = none → bump a.num_comments = some 1) ∧
    (∀ k, a.num_comments = some k → bump a.num_comments = some (k + 1)) ∧
    (∀ i c, (process_comment_submission pyHash now req (some a)).events.get? i =
        some (Event.putComment c) → 0 < i) := by
  have hshape : ∃ rest, (process_comment_submission pyHash now req (some a)).events =
      Event.putArticle { a with num_comments := bump a.num_comments } :: rest := by
    rcases process_comment_shape pyHash now req (some a) with ⟨hnone, _⟩ |
      ⟨av, e, hsome, hEq⟩ | ⟨av, cm, hsome, hEq⟩
    · exact Option.noConfusion hnone
    · have hav : av = a := (Option.some.inj hsome).symm
      subst hav
      exact ⟨[], by rw [hEq]⟩
    · have hav : av = a := (Option.some.inj hsome).symm
      subst hav
      exact ⟨[Event.putComment cm, Event.respond cm.permalink "comment",
              Event.invalidateCache], by rw [hEq]⟩
  obtain ⟨rest, hr⟩ := hshape
  refine ⟨?_, ?_, ?_, ?_⟩
  · rw [hr]
    rfl
  · intro h
    rw [h]
    rfl
  · intro k hk
    rw [hk]
    cases k with
    | zero => rfl
    | succ m => rfl
  · intro i c hic
    rw [hr] at hic
    cases i with
    | zero => simp at hic
    | succ n => exact Nat.succ_pos n

theorem comment_counter_persisted_first_witness :
    (process_comment_submission exHash exNow exCommentReq (some exParentArticle)).events.head? =
        some (Event.putArticle
          { exParentArticle with num_comments := bump exParentArticle.num_comments }) ∧
    bump exParentArticle.num_comments = some 1 :=
  ⟨(comment_counter_persisted_first exHash exNow exCommentReq exParentArticle).1,
   (comment_counter_persisted_first exHash exNow exCommentReq exParentArticle).2.1 rfl⟩

/-- Claim C10: when the parent article exists and any of the name, email,
body or thread form fields is missing, the comment submission raises a
KeyError after the bumped counter of the parent has already been persisted: the
trace holds exactly the parent persist, no comment write and no response. -/
theorem comment_missing_field_key_error (pyHash : String → String → String → Int)
    (now : DateTime) (req : CommentRequest) (a : Article) (d : DateTime)
    (hp : get_datetime now req.published = Except.ok d)
    (hmiss : req.name = "" ∨ req.email = "" ∨ req.body = "" ∨ req.thread = "") :
    process_comment_submission pyHash now req (some a) =
      { events := [Event.putArticle { a with num_comments := bump a.num_comments }],
        result := HandlerResult.raised PyErr.keyError } := by
  have hh : comment_hash_from_request now req = Except.ok
      { name := nonEmpty req.name, email := nonEmpty req.email,
        title := nonEmpty req.title, body := nonEmpty req.body,
        thread := nonEmpty req.thread, published := d } := by
    unfold comment_hash_from_request
    rw [hp]
  unfold process_comment_submission
  rw [hh]
  rcases hmiss with h | h | h | h
  · rw [show nonEmpty req.name = none from by simp [nonEmpty, h]]
  · rcases hn : nonEmpty req.name with _ | n
    · rfl
    · rw [show nonEmpty req.email = none from by simp [nonEmpty, h]]
  · rcases hn : nonEmpty req.name with _ | n
    · rfl
    · rcases he : nonEmpty req.email with _ | em
      · rfl
      · rw [show nonEmpty req.body = none from by simp [nonEmpty, h]]
  · rcases hn : nonEmpty req.name with _ | n
    · rfl
    · rcases he : nonEmpty req.email with _ | em
      · rfl
      · rcases hb : nonEmpty req.body with _ | b
        · rfl
        · rw [show nonEmpty req.thread = none from by simp [nonEmpty, h]]

theorem comment_missing_field_key_error_witness :
    process_comment_submission exHash exNow exCommentReqNoName (some exParentArticle) =
      { events := [Event.putArticle
          { exParentArticle with num_comments := bump exParentArticle.num_comments }],
        result := HandlerResult.raised PyErr.keyError } :=
  comment_missing_field_key_error exHash exNow exCommentReqNoName exParentArticle exNow
    rfl (Or.inl rfl)

theorem process_comment_success (pyHash : String → String → String → Int)
    (now : DateTime) (req : CommentRequest) (a : Article) (d : DateTime)
    (hn : req.name ≠ "") (he : req.email ≠ "") (hb : req.body ≠ "")
    (ht : req.thread ≠ "") (hp : get_datetime now req.published = Except.ok d) :
    process_comment_submission pyHash now req (some a) =
      { events :=
          [Event.putArticle { a with num_comments := bump a.num_comments },
           Event.putComment
             { permalink := toString (pyHash req.name req.email req.body)
               body := req.body
               article := a.permalink
               thread := req.thread
               name := some req.name
               email := some req.email
               title := nonEmpty req.title
               published := some d },
           Event.respond (toString (pyHash req.name req.email req.body)) "comment",
           Event.invalidateCache]
        result := HandlerResult.done } := by
  have hh : comment_hash_from_request now req = Except.ok
      { name := some req.name, email := some req.email,
        title := nonEmpty req.title, body := some req.body,
        thread := some req.thread, published := d } := by
    unfold comment_hash_from_request
    rw [hp]
    simp [nonEmpty, hn, he, hb, ht]
  unfold process_comment_submission
  rw [hh]

/-- Claim C7: two comment submissions with identical name, email and body
triples compute the identical comment key, whatever their published
timestamps, threads or parent articles; the key is a deterministic function
of exactly that triple. -/
theorem comment_key_content_addressed (pyHash : String → String → String → Int)
    (now1 now2 : DateTime) (req1 req2 : CommentRequest) (a1 a2 : Article)
    (d1 d2 : DateTime)
    (hn1 : req1.name ≠ "") (he1 : req1.email ≠ "") (hb1 : req1.body ≠ "")
    (ht1 : req1.thread ≠ "") (hp1 : get_datetime now1 req1.published = Except.ok d1)
    (hn2 : req2.name ≠ "") (he2 : req2.email ≠ "") (hb2 : req2.body ≠ "")
    (ht2 : req2.thread ≠ "") (hp2 : get_datetime now2 req2.published = Except.ok d2)
    (en : req2.name = req1.name) (ee : req2.email = req1.email)
    (eb : req2.body = req1.body) :
    comment_key_of (process_comment_submission pyHash now1 req1 (some a1)) =
        some (toString (pyHash req1.name req1.email req1.body)) ∧
    comment_key_of (process_comment_submission pyHash now2 req2 (some a2)) =
        some (toString (pyHash req1.name req1.email req1.body)) := by
  rw [process_comment_success pyHash now1 req1 a1 d1 hn1 he1 hb1 ht1 hp1]
  rw [process_comment_success pyHash now2 req2 a2 d2 hn2 he2 hb2 ht2 hp2]
  rw [en, ee, eb]
  constructor <;> simp [comment_key_of, List.findSome?]

theorem comment_key_content_addressed_witness :
    comment_key_of (process_comment_submission exHash exNow exCommentReq
        (some exParentArticle)) =
      some (toString (exHash "Alice" "alice@example.com" "Nice post")) ∧
    comment_key_of (process_comment_submission exHash exNow exCommentReq2
        (some exParentArticle2)) =
      some (toString (exHash "Alice" "alice@example.com" "Nice post")) :=
  comment_key_content_addressed exHash exNow exNow exCommentReq exCommentReq2
    exParentArticle exParentArticle2 exNow ⟨2024, 3, 15, 10, 0, 0, 0⟩
    (by decide) (by decide) (by decide) (by decide) rfl
    (by decide) (by decide) (by decide) (by decide) rfl rfl rfl rfl

/-- Claim C8 counterexample: at this concrete successful article submission
the trace is persist, respond, invalidate, so the success response is
produced at index one, before the cache invalidation at index two; the
claimed persist-invalidate-respond order is false on the code. -/
theorem write_pipeline_order_counterexample :
    (process_article_submission (fun s => s) exNow "page" exArticleReq).result =
        HandlerResult.done ∧
    (process_article_submission (fun s => s) exNow "page" exArticleReq).events.findIdx?
        isRespondEvent = some 1 ∧
    (process_article_submission (fun s => s) exNow "page" exArticleReq).events.findIdx?
        isInvalidateEvent = some 2 ∧
    invalidate_before_respond
        (process_article_submission (fun s => s) exNow "page" exArticleReq).events = false :=
  ⟨rfl, rfl, rfl, rfl⟩

/-- Claim C8 (amended): on every successful write the pipeline order is
persist, then the success response identifying the permalink and entity
type, then the unconditional cache invalidation: the response precedes the
invalidation rather than following it. -/
theorem write_pipeline_persist_respond_invalidate :
    (∀ (textile : String → String) (now : DateTime) (article_type : String)
        (req : ArticleRequest) (evs : List Event),
      process_article_submission textile now article_type req =
          { events := evs, result := HandlerResult.done } →
      ∃ av, evs = [Event.putArticle av, Event.respond av.permalink article_type,
                   Event.invalidateCache]) ∧
    (∀ (pyHash : String → String → String → Int) (now : DateTime)
        (req : CommentRequest) (article : Option Article) (i : Nat) (c : Comment),
      (process_comment_submission pyHash now req article).events.get? i =
          some (Event.putComment c) →
      ∃ av, (process_comment_submission pyHash now req article).events =
        [Event.putArticle av, Event.putComment c,
         Event.respond c.permalink "comment", Event.invalidateCache]) ∧
    (∀ (articles : List Article) (comments : List Comment) (path k pl : String),
      (PageHandler_delete_body articles comments path).events.get? 0 =
          some (Event.deleteEntity k pl) →
      (PageHandler_delete_body articles comments path).events =
        [Event.deleteEntity k pl, Event.writeOut ("Deleted " ++ pl),
         Event.invalidateCache]) := by
  refine ⟨?_, ?_, ?_⟩
  · intro textile now article_type req evs h
    rcases process_article_shape textile now article_type req with ⟨e, hEq⟩ | ⟨av, hEq⟩
    · rw [hEq] at h
      simp [Outcome.mk.injEq] at h
    · rw [hEq] at h
      obtain ⟨h1, -⟩ := Outcome.mk.inj h
      exact ⟨av, h1.symm⟩
  · intro pyHash now req article i c h
    rcases process_comment_shape pyHash now req article with ⟨hnone, hEq⟩ |
      ⟨av, e, hsome, hEq⟩ | ⟨av, cm, hsome, hEq⟩
    · rw [hEq] at h
      cases i with
      | zero => simp at h
      | succ n => simp at h
    · rw [hEq] at h
      cases i with
      | zero => simp at h
      | succ n => simp at h
    · rw [hEq] at h ⊢
      cases i with
      | zero => simp at h
      | succ n =>
        cases n with
        | zero =>
          simp only [List.get?] at h
          have hc : cm = c := by
            have := Option.some.inj h
            exact Event.putComment.inj this
          subst hc
          exact ⟨{ av with num_comments := bump av.num_comments }, rfl⟩
        | succ m =>
          cases m with
          | zero => simp at h
          | succ m2 =>
            cases m2 with
            | zero => simp at h
            | succ m3 => simp at h
  · intro articles comments path k pl h
    rcases delete_body_shape articles comments path with hEq | ⟨k2, pl2, hEq⟩
    · rw [hEq] at h
      simp at h
    · rw [hEq] at h ⊢
      simp only [List.get?] at h
      have := Option.some.inj h
      obtain ⟨hk, hpl⟩ := Event.deleteEntity.inj this
      rw [hk, hpl]

theorem write_pipeline_persist_respond_invalidate_witness :
    (PageHandler_delete_body [exParentArticle] [] "Article").events =
      [Event.deleteEntity "article" "about", Event.writeOut ("Deleted " ++ "about"),
       Event.invalidateCache] :=
  write_pipeline_persist_respond_invalidate.2.2 [exParentArticle] [] "Article"
    "article" "about" rfl

theorem article_hash_ok (textile : String → String) (now : DateTime)
    (article_type : String) (req : ArticleRequest) (ph : ArticleHash)
    (hh : article_hash_from_request textile now article_type req = Except.ok ph) :
    ∃ t, ph.title = some t ∧
      ph.permalink = nonEmpty (permalink_funcs article_type t ph.published) := by
  unfold article_hash_from_request at hh
  rcases hpub : get_datetime now req.published with e | pub
  · rw [hpub] at hh
    exact Except.noConfusion hh
  · rw [hpub] at hh
    rcases hupd : get_datetime now req.updated with e | upd
    · rw [hupd] at hh
      exact Except.noConfusion hh
    · rw [hupd] at hh
      rcases hbody : nonEmpty req.body with _ | b
      · rw [hbody] at hh
        exact Except.noConfusion hh
      · rw [hbody] at hh
        rcases hfmt : nonEmpty req.format with _ | f
        · rw [hfmt] at hh
          exact Except.noConfusion hh
        · rw [hfmt] at hh
          rcases htitle : nonEmpty req.title with _ | t
          · rw [htitle] at hh
            exact Except.noConfusion hh
          · rw [htitle] at hh
            have hr := Except.ok.inj hh
            refine ⟨t, ?_, ?_⟩ <;> rw [← hr]

/-- Claim C6: every blog article persisted by the article submission
pipeline carries a permalink equal to the published year, a slash, the
published month, a slash, and the friendly slug of its title, with the year
and month taken from the published timestamp of the article itself. -/
theorem blog_permalink_shape (textile : String → String) (now : DateTime)
    (req : ArticleRequest) (a : Article)
    (h : Event.putArticle a ∈ (process_article_submission textile now "blog" req).events) :
    a.permalink =
      toString a.published.year ++ "/" ++ toString a.published.month ++ "/" ++
        get_friendly_url a.title := by
  unfold process_article_submission at h
  rcases hh : article_hash_from_request textile now "blog" req with e |
    ⟨tOpt, bOpt, fOpt, lidOpt, pub, upd, tg, htmlOpt, plOpt⟩
  · rw [hh] at h
    simp at h
  · rw [hh] at h
    cases plOpt with
    | none => simp at h
    | some pl =>
      cases tOpt with
      | none => simp at h
      | some t2 =>
        cases bOpt with
        | none => simp at h
        | some b =>
          cases htmlOpt with
          | none => simp at h
          | some hv =>
            obtain ⟨t, htitle, hpl⟩ := article_hash_ok textile now "blog" req _ hh
            have ht2 : t2 = t := Option.some.inj htitle
            have hppl : pl = permalink_funcs "blog" t pub := nonEmpty_some _ _ hpl.symm
            simp at h
            subst h
            show pl = toString pub.year ++ "/" ++ toString pub.month ++
              "/" ++ get_friendly_url t2
            rw [hppl, ht2]
            rfl

theorem blog_permalink_shape_witness :
    exBlogArticle.permalink =
      toString exBlogArticle.published.year ++ "/" ++
        toString exBlogArticle.published.month ++ "/" ++
        get_friendly_url exBlogArticle.title :=
  blog_permalink_shape (fun s => s) exNow exArticleReq exBlogArticle (by decide)

end Bloog
